import Mathlib

/-!
Verification of the vehicle-dashboard core of the bajaj-finance repository.

The definitions below are a shallow embedding of
`src/components/vehicle-dashboard.tsx`, `src/hooks/use-debounce.ts` and the
parts of `src/services/vehicle.service.ts` the dashboard relies on.
React state is made explicit as a `DashboardState` record; asynchronous
handlers are split into a synchronous "start" phase (everything executed
before the first `await`) and a "settle" phase parameterised by the API
call's outcome; timers are modelled by an explicit event semantics.
-/

namespace BajajDashboard

/-- `Vehicle` record. The fields follow the repository's vehicle type as the
dashboard and the spec's data model use it: integer `id`, required strings
`dealer_code`, `model_name`, `serial_number`, optional strings for the rest,
and an optional `status` whose value `"sold"` marks a sold vehicle. -/
structure Vehicle where
  id : Nat
  dealer_code : String
  dealer_name : Option String := none
  dealer_address : Option String := none
  dealer_city : Option String := none
  dealer_state : Option String := none
  model_name : String
  model_id : Option String := none
  battery_power : Option String := none
  serial_number : String
  status : Option String := none
deriving Repr, DecidableEq

/-- `const ITEMS_PER_PAGE = 5` (vehicle-dashboard.tsx line 13). -/
def ITEMS_PER_PAGE : Nat := 5

/-- `const totalPages = Math.ceil(vehicles.length / ITEMS_PER_PAGE)`
(vehicle-dashboard.tsx line 175): ceiling division of the list length by 5.
Note this is `0`, not `1`, for an empty list. -/
def totalPages (len : Nat) : Nat := (len + (ITEMS_PER_PAGE - 1)) / ITEMS_PER_PAGE

/-- The visible slice for a 1-based `page`:
`startIndex = (currentPage - 1) * ITEMS_PER_PAGE`,
`endIndex = startIndex + ITEMS_PER_PAGE`,
`currentVehicles = vehicles.slice(startIndex, endIndex)`
(vehicle-dashboard.tsx lines 176-178). -/
def pageSlice (l : List Vehicle) (page : Nat) : List Vehicle :=
  (l.drop ((page - 1) * ITEMS_PER_PAGE)).take ITEMS_PER_PAGE

/-- All visible slices, for pages `1 .. totalPages`. -/
def pagesOf (l : List Vehicle) : List (List Vehicle) :=
  (List.range (totalPages l.length)).map (fun i => pageSlice l (i + 1))

/-- Spec-side page count, for comparison with the code's `totalPages`:
the spec says `totalPages = max(1, ceil(len/pageSize))`. -/
def specTotalPages (len : Nat) : Nat :=
  max 1 ((len + (ITEMS_PER_PAGE - 1)) / ITEMS_PER_PAGE)

/-- The render guard for the pagination controls:
`{totalPages > 1 && ( ... )}` inside the table section, which itself renders
only when `!isLoading && vehicles.length > 0` (vehicle-dashboard.tsx lines
341 and 511). -/
def paginationControlsShown (isLoading : Bool) (len : Nat) : Bool :=
  !isLoading && decide (0 < len) && decide (1 < totalPages len)

/-- `type VehicleSearchMode = 'serial_number' | 'dealer_code'`
(vehicle-dashboard.tsx line 25). -/
inductive VehicleSearchMode where
  | serial_number
  | dealer_code
deriving Repr, DecidableEq

/-- The pending-delete snapshot:
`useState<{ id: number; serialNumber: string } | null>`
(vehicle-dashboard.tsx line 40). -/
structure DeleteTarget where
  id : Nat
  serialNumber : String
deriving Repr, DecidableEq

/-- The dashboard's React state, one field per `useState` hook of
`VehicleDashboard`, plus the two toast channels (`toast.success` /
`toast.error`) recorded as lists with the newest message first. -/
structure DashboardState where
  vehicles : List Vehicle
  isLoading : Bool
  currentPage : Nat
  searchSerialNumber : String
  searchDealerCode : String
  searchMode : VehicleSearchMode
  editingVehicle : Option Vehicle
  deletingVehicle : Option DeleteTarget
  toastSuccesses : List String
  toastErrors : List String
deriving Repr, DecidableEq

/-- The user-driven search operations of the dashboard: the two mode-toggle
buttons (vehicle-dashboard.tsx lines 242-245 and 256-259), typing in the two
search inputs (lines 284 and 299), and the Clear Filters button
(`handleClearSearch`, lines 101-104). -/
inductive SearchOp where
  | modeSerialClick
  | modeDealerClick
  | setSerial (q : String)
  | setDealer (q : String)
  | clearClick
deriving Repr, DecidableEq

/-- One search operation applied to the state. The mode-toggle handlers set
the mode and clear the *other* query:
`setSearchMode('serial_number'); setSearchDealerCode('');` and
`setSearchMode('dealer_code'); setSearchSerialNumber('');`. -/
def applySearchOp (s : DashboardState) : SearchOp → DashboardState
  | .modeSerialClick =>
      { s with searchMode := .serial_number, searchDealerCode := "" }
  | .modeDealerClick =>
      { s with searchMode := .dealer_code, searchSerialNumber := "" }
  | .setSerial q => { s with searchSerialNumber := q }
  | .setDealer q => { s with searchDealerCode := q }
  | .clearClick => { s with searchSerialNumber := "", searchDealerCode := "" }

def applySearchOps (s : DashboardState) (ops : List SearchOp) : DashboardState :=
  ops.foldl applySearchOp s

/-- The filter pair computed by the auto-search `useEffect`
(vehicle-dashboard.tsx lines 84-95): the active mode contributes its
debounced query, the inactive filter is `undefined`. -/
def autoSearchFilters (mode : VehicleSearchMode)
    (debouncedSerialNumber debouncedDealerCode : String) :
    Option String × Option String :=
  match mode with
  | .serial_number => (some debouncedSerialNumber, none)
  | .dealer_code => (none, some debouncedDealerCode)

/-- Models `x?.trim() || undefined` (vehicle-dashboard.tsx lines 55-56):
a missing string stays missing, and a string that trims to `""` becomes
`undefined`. -/
def trimOrNone : Option String → Option String
  | none => none
  | some s => if s.trim = "" then none else some s.trim

/-- The filters actually handed to `getVehicles` inside `fetchVehicles`. -/
def fetchRequestFilters (serialNumber dealerCode : Option String) :
    Option String × Option String :=
  (trimOrNone serialNumber, trimOrNone dealerCode)

/-- `onClick={() => setCurrentPage((prev) => Math.max(1, prev - 1))}`
(vehicle-dashboard.tsx line 519). -/
def prevPageClick (currentPage : Nat) : Nat := max 1 (currentPage - 1)

/-- `onClick={() => setCurrentPage((prev) => Math.min(totalPages, prev + 1))}`
(vehicle-dashboard.tsx line 533). -/
def nextPageClick (tp currentPage : Nat) : Nat := min tp (currentPage + 1)

theorem totalPages_zero_iff (len : Nat) : totalPages len = 0 ↔ len = 0 := by
  unfold totalPages ITEMS_PER_PAGE
  omega

theorem totalPages_succ (len : Nat) (h : 1 ≤ len) :
    totalPages len = totalPages (len - ITEMS_PER_PAGE) + 1 := by
  unfold totalPages ITEMS_PER_PAGE
  omega

theorem pageSlice_one (l : List Vehicle) : pageSlice l 1 = l.take ITEMS_PER_PAGE := by
  simp [pageSlice]

theorem pageSlice_shift (l : List Vehicle) (p : Nat) :
    pageSlice l (p + 2) = pageSlice (l.drop ITEMS_PER_PAGE) (p + 1) := by
  unfold pageSlice ITEMS_PER_PAGE
  rw [List.drop_drop]
  have h : (p + 2 - 1) * 5 = 5 + (p + 1 - 1) * 5 := by omega
  rw [h]

theorem pagesOf_nil : pagesOf ([] : List Vehicle) = [] := by
  simp [pagesOf, totalPages, ITEMS_PER_PAGE]

theorem pagesOf_cons (l : List Vehicle) (h : l ≠ []) :
    pagesOf l = l.take ITEMS_PER_PAGE :: pagesOf (l.drop ITEMS_PER_PAGE) := by
  have hlen : 1 ≤ l.length := List.length_pos.mpr h
  unfold pagesOf
  rw [List.length_drop, totalPages_succ l.length hlen, List.range_succ_eq_map]
  simp only [List.map_cons, List.map_map, Function.comp]
  rw [pageSlice_one]
  congr 1
  apply List.map_congr_left
  intro i _
  exact pageSlice_shift l i

theorem pagesOf_join_aux :
    ∀ n (l : List Vehicle), l.length ≤ n → (pagesOf l).flatten = l := by
  intro n
  induction n with
  | zero =>
    intro l hl
    have hnil : l = [] := List.eq_nil_of_length_eq_zero (Nat.le_zero.mp hl)
    subst hnil
    simp [pagesOf_nil]
  | succ n ih =>
    intro l hl
    by_cases h : l = []
    · subst h
      simp [pagesOf_nil]
    · rw [pagesOf_cons l h]
      have hlen : 1 ≤ l.length := List.length_pos.mpr h
      simp only [List.flatten_cons]
      rw [ih (l.drop ITEMS_PER_PAGE)
        (by simp only [List.length_drop, ITEMS_PER_PAGE]; omega)]
      exact List.take_append_drop _ l

theorem pagesOf_join (l : List Vehicle) : (pagesOf l).flatten = l :=
  pagesOf_join_aux l.length l (Nat.le_refl _)

theorem pageSlice_full (l : List Vehicle) (p : Nat) (h1 : 1 ≤ p)
    (h2 : p < totalPages l.length) : (pageSlice l p).length = ITEMS_PER_PAGE := by
  unfold totalPages ITEMS_PER_PAGE at h2
  simp only [pageSlice, List.length_take, List.length_drop, ITEMS_PER_PAGE]
  omega

/-- A sample vehicle used to instantiate concrete scenarios. -/
def mkVehicle (i : Nat) : Vehicle :=
  { id := i, dealer_code := "D", model_name := "M", serial_number := "S" }

/-- A sample list of `n` distinct vehicles. -/
def sampleVehicles (n : Nat) : List Vehicle := (List.range n).map mkVehicle

/-- C5: for every vehicle list, the visible slices over pages
`1 .. totalPages` partition the list: their concatenation is the list itself
(so the sum of their lengths is `N`), every page before the last has exactly
`ITEMS_PER_PAGE = 5` entries, and for a 12-element list `totalPages = 3` with
page 3 holding exactly the two entries at indices 10 and 11. -/
theorem pagination_partition (l : List Vehicle) :
    (pagesOf l).flatten = l ∧
    ((pagesOf l).map List.length).sum = l.length ∧
    (∀ p, 1 ≤ p → p < totalPages l.length → (pageSlice l p).length = ITEMS_PER_PAGE) ∧
    totalPages 12 = 3 ∧
    (∀ f : Nat → Vehicle, pageSlice ((List.range 12).map f) 3 = [f 10, f 11]) := by
  refine ⟨pagesOf_join l, ?_, pageSlice_full l, by decide, ?_⟩
  · have h := congrArg List.length (pagesOf_join l)
    simpa using h
  · intro f
    simp [pageSlice, ITEMS_PER_PAGE, List.range_succ]

theorem pagination_partition_witness :
    ((pagesOf (sampleVehicles 12)).flatten = sampleVehicles 12 ∧
      ((pagesOf (sampleVehicles 12)).map List.length).sum = (sampleVehicles 12).length ∧
      (∀ p, 1 ≤ p → p < totalPages (sampleVehicles 12).length →
        (pageSlice (sampleVehicles 12) p).length = ITEMS_PER_PAGE) ∧
      totalPages 12 = 3 ∧
      (∀ f : Nat → Vehicle, pageSlice ((List.range 12).map f) 3 = [f 10, f 11])) ∧
    (pageSlice (sampleVehicles 12) 2).length = ITEMS_PER_PAGE := by
  refine ⟨pagination_partition (sampleVehicles 12), ?_⟩
  exact (pagination_partition (sampleVehicles 12)).2.2.1 2 (by decide) (by decide)

/-- C6 counterexample: for the empty list the code computes
`totalPages = Math.ceil(0/5) = 0`, while the claim's `max(1, ceil(0/5))`
is `1`; the two disagree at length 0. -/
theorem totalPages_empty_counterexample :
    totalPages 0 = 0 ∧ specTotalPages 0 = 1 ∧ totalPages 0 ≠ specTotalPages 0 := by
  decide

/-- C6 (amended): the derived page count equals `ceil(len/5)` — which is `0`,
not `1`, for an empty list — and agrees with `max(1, ceil(len/5))` for every
non-empty list; when not loading, the pagination controls are shown exactly
when `totalPages > 1`, i.e. hidden exactly when `totalPages ≤ 1`. -/
theorem totalPages_and_render_guard (len : Nat) :
    totalPages 0 = 0 ∧
    (1 ≤ len → totalPages len = specTotalPages len) ∧
    (paginationControlsShown false len = true ↔ 1 < totalPages len) := by
  refine ⟨by decide, ?_, ?_⟩
  · intro h
    unfold specTotalPages totalPages ITEMS_PER_PAGE
    omega
  · have h0 := totalPages_zero_iff len
    simp only [paginationControlsShown, Bool.not_false, Bool.true_and,
      Bool.and_eq_true, decide_eq_true_eq]
    constructor
    · rintro ⟨_, h2⟩
      exact h2
    · intro h
      exact ⟨by omega, h⟩

theorem totalPages_and_render_guard_witness :
    1 ≤ 7 ∧ totalPages 7 = specTotalPages 7 :=
  ⟨by decide, (totalPages_and_render_guard 7).2.1 (by decide)⟩

/-- C7: with `currentPage` in `[1, totalPages]`, the "Previous" click at page
1 and the "Next" click at the last page are no-ops, and both clicks keep
`currentPage` inside `[1, max(1, totalPages)]`. -/
theorem page_navigation_clamped (l : List Vehicle) (p : Nat)
    (h1 : 1 ≤ p) (h2 : p ≤ totalPages l.length) :
    (p = 1 → prevPageClick p = p) ∧
    (p = totalPages l.length → nextPageClick (totalPages l.length) p = p) ∧
    (1 ≤ prevPageClick p ∧ prevPageClick p ≤ max 1 (totalPages l.length)) ∧
    (1 ≤ nextPageClick (totalPages l.length) p ∧
      nextPageClick (totalPages l.length) p ≤ max 1 (totalPages l.length)) := by
  unfold prevPageClick nextPageClick
  omega

theorem page_navigation_clamped_witness :
    (1 = 1 → prevPageClick 1 = 1) ∧
    (1 = totalPages (sampleVehicles 12).length →
      nextPageClick (totalPages (sampleVehicles 12).length) 1 = 1) ∧
    (1 ≤ prevPageClick 1 ∧
      prevPageClick 1 ≤ max 1 (totalPages (sampleVehicles 12).length)) ∧
    (1 ≤ nextPageClick (totalPages (sampleVehicles 12).length) 1 ∧
      nextPageClick (totalPages (sampleVehicles 12).length) 1 ≤
        max 1 (totalPages (sampleVehicles 12).length)) :=
  page_navigation_clamped (sampleVehicles 12) 1 (by decide) (by decide)

/-- The internal state of `useDebounce` (use-debounce.ts): the current
`debouncedValue` and the pending `setTimeout`, recorded as
`(expiry time, value it will publish)`. -/
structure DebounceState (α : Type) where
  debouncedValue : α
  pending : Option (Nat × α)
deriving Repr, DecidableEq

/-- One change of the hook's input `value` at time `t`, under the event-loop
semantics of use-debounce.ts lines 15-18. If the pending timer's expiry is
`≤ t` it fired before this change: `setDebouncedValue` ran (recorded as an
emission). The effect cleanup then cancels whatever timer is pending and the
re-run schedules a fresh `setTimeout(..., delay)` for the new value. -/
def stepDebounce {α : Type} (d : Nat) (acc : DebounceState α × List (Nat × α))
    (ev : Nat × α) : DebounceState α × List (Nat × α) :=
  match acc, ev with
  | ({ debouncedValue := dv, pending := some (e, w) }, ems), (t, v) =>
      if e ≤ t then
        ({ debouncedValue := w, pending := some (t + d, v) }, ems ++ [(e, w)])
      else
        ({ debouncedValue := dv, pending := some (t + d, v) }, ems)
  | ({ debouncedValue := dv, pending := none }, ems), (t, v) =>
      ({ debouncedValue := dv, pending := some (t + d, v) }, ems)

/-- A full run of the hook: mounted at time `t₀` with initial value `v₀`
(the mount effect schedules a timer for `(t₀ + d, v₀)`), then the listed
`(time, value)` changes, then quiescence long enough for the last timer to
fire. Returns the final `debouncedValue` and every `setDebouncedValue`
invocation as an `(time, value)` emission list. -/
def debounceRun {α : Type} (d : Nat) (v₀ : α) (t₀ : Nat)
    (events : List (Nat × α)) : α × List (Nat × α) :=
  let init : DebounceState α := { debouncedValue := v₀, pending := some (t₀ + d, v₀) }
  let fin := events.foldl (stepDebounce d) (init, [])
  match fin.1.pending with
  | some (e, w) => (w, fin.2 ++ [(e, w)])
  | none => (fin.1.debouncedValue, fin.2)

theorem debounce_loop {α : Type} (d : Nat) (dv : α) :
    ∀ (events : List (Nat × α)) (t₀ : Nat) (v₀ : α) (ems : List (Nat × α)),
    List.Chain (fun a b => b < a + d) t₀ (events.map Prod.fst) →
    events.foldl (stepDebounce d)
        ({ debouncedValue := dv, pending := some (t₀ + d, v₀) }, ems) =
      ({ debouncedValue := dv,
         pending := some ((events.getLastD (t₀, v₀)).1 + d,
                          (events.getLastD (t₀, v₀)).2) }, ems) := by
  intro events
  induction events with
  | nil =>
    intro t₀ v₀ ems _
    rfl
  | cons ev tl ih =>
    intro t₀ v₀ ems h
    obtain ⟨t, v⟩ := ev
    simp only [List.map_cons, List.chain_cons] at h
    obtain ⟨h1, h2⟩ := h
    have hc : ¬ (t₀ + d ≤ t) := Nat.not_le.mpr h1
    simp only [List.foldl_cons, stepDebounce, if_neg hc, List.getLastD_cons]
    exact ih t v ems h2

/-- C4: if every input change happens within `d` of the previous one (and
the first within `d` of mount), then each change cancels the pending timer,
no intermediate value is ever published, and the run performs exactly one
`setDebouncedValue` emission: the last input value, at time `d` after the
last change; the final debounced value is that last value. -/
theorem debounce_single_emission {α : Type} (d : Nat) (v₀ : α) (t₀ : Nat)
    (events : List (Nat × α)) (hne : events ≠ [])
    (hchain : List.Chain (fun a b => b < a + d) t₀ (events.map Prod.fst)) :
    debounceRun d v₀ t₀ events =
      ((events.getLastD (t₀, v₀)).2,
       [((events.getLastD (t₀, v₀)).1 + d, (events.getLastD (t₀, v₀)).2)]) := by
  simp only [debounceRun]
  rw [debounce_loop d v₀ events t₀ v₀ [] hchain]
  rfl

theorem debounce_single_emission_witness :
    debounceRun 500 "" 0 [(100, "ABC"), (300, "ABC123")] =
      ("ABC123", [(800, "ABC123")]) :=
  debounce_single_emission 500 "" 0 [(100, "ABC"), (300, "ABC123")]
    (by decide)
    (List.Chain.cons (by decide) (List.Chain.cons (by decide) List.Chain.nil))

/-- C2: after any operation sequence ending in a mode-toggle click, the
inactive mode's query string is empty; and the auto-search effect always
fetches with the inactive filter `undefined` — the active filter is exactly
the active mode's debounced query — so at most one of the two request
filters handed to `getVehicles` is populated. -/
theorem search_mode_exclusive (s : DashboardState) (ops : List SearchOp)
    (dSerial dDealer : String) :
    (applySearchOps s (ops ++ [.modeSerialClick])).searchDealerCode = "" ∧
    (applySearchOps s (ops ++ [.modeDealerClick])).searchSerialNumber = "" ∧
    autoSearchFilters .serial_number dSerial dDealer = (some dSerial, none) ∧
    autoSearchFilters .dealer_code dSerial dDealer = (none, some dDealer) ∧
    (∀ mode,
      (fetchRequestFilters (autoSearchFilters mode dSerial dDealer).1
          (autoSearchFilters mode dSerial dDealer).2).1 = none ∨
      (fetchRequestFilters (autoSearchFilters mode dSerial dDealer).1
          (autoSearchFilters mode dSerial dDealer).2).2 = none) := by
  refine ⟨?_, ?_, rfl, rfl, ?_⟩
  · simp [applySearchOps, List.foldl_append, applySearchOp]
  · simp [applySearchOps, List.foldl_append, applySearchOp]
  · intro mode
    cases mode
    · right
      rfl
    · left
      rfl

/-- The uniform mutation envelope of vehicle.service.ts
(`{ success, message?, error? }`). -/
structure ApiResponse where
  success : Bool
  message : Option String := none
  error : Option String := none
deriving Repr, DecidableEq

/-- Outcome of an awaited mutation call: either a resolved envelope, or a
thrown exception already rendered to its user-facing message
(`error instanceof Error ? error.message : 'An unexpected error occurred'`). -/
inductive CallOutcome where
  | resp (r : ApiResponse)
  | exn (msg : String)
deriving Repr, DecidableEq

/-- A failed API outcome: an envelope with `success=false`, or a thrown
exception. -/
def CallOutcome.isFailure : CallOutcome → Bool
  | .resp r => !r.success
  | .exn _ => true

/-- JS `x || fallback` on an optional string: `undefined` and `""` are both
falsy and select the fallback. -/
def jsOr (x : Option String) (fallback : String) : String :=
  match x with
  | none => fallback
  | some s => if s = "" then fallback else s

/-- Outcome of an awaited `getVehicles` call: a `VehicleListResponse`
(`{ vehicles, error? }`) or a thrown exception message. -/
inductive FetchOutcome where
  | resp (vehicles : List Vehicle) (error : Option String)
  | exn (msg : String)
deriving Repr, DecidableEq

/-- The synchronous prefix of `fetchVehicles` (vehicle-dashboard.tsx line
53): `setIsLoading(true)` before the awaited call. -/
def fetchVehiclesStart (s : DashboardState) : DashboardState :=
  { s with isLoading := true }

/-- The rest of `fetchVehicles` (vehicle-dashboard.tsx lines 60-75), run when
the awaited `getVehicles` settles: `if (response.error)` (JS truthiness)
toasts the error and empties the list; otherwise the list is replaced and
`setCurrentPage(1)` runs; a thrown exception toasts and empties the list;
the `finally` block always runs `setIsLoading(false)`. -/
def fetchVehiclesSettle (s : DashboardState) (outcome : FetchOutcome) :
    DashboardState :=
  match outcome with
  | .resp vs err =>
    match err with
    | some e =>
      if e ≠ "" then
        { s with toastErrors := e :: s.toastErrors, vehicles := [],
                 isLoading := false }
      else
        { s with vehicles := vs, currentPage := 1, isLoading := false }
    | none => { s with vehicles := vs, currentPage := 1, isLoading := false }
  | .exn msg =>
      { s with toastErrors := msg :: s.toastErrors, vehicles := [],
               isLoading := false }

/-- The optimistic patch of `handleMarkAsSold` (vehicle-dashboard.tsx lines
137-141): `prevVehicles.map((v) => v.id === vehicle.id ?
{ ...v, status: 'sold' } : v)`. -/
def applyOptimisticSold (vehicle : Vehicle) (l : List Vehicle) : List Vehicle :=
  l.map (fun v => if v.id = vehicle.id then { v with status := some "sold" } else v)

/-- The rollback of `handleMarkAsSold` (vehicle-dashboard.tsx lines 152-156
and 161-165): restore `status` from the `vehicle` snapshot captured in the
closure. -/
def revertSold (vehicle : Vehicle) (l : List Vehicle) : List Vehicle :=
  l.map (fun v => if v.id = vehicle.id then { v with status := vehicle.status } else v)

/-- The synchronous prefix of `handleMarkAsSold`: the optimistic patch runs
before the awaited `markAsSold` call. -/
def handleMarkAsSoldStart (s : DashboardState) (vehicle : Vehicle) :
    DashboardState :=
  { s with vehicles := applyOptimisticSold vehicle s.vehicles }

/-- The rest of `handleMarkAsSold` (vehicle-dashboard.tsx lines 143-169),
run when the awaited call settles. Returns the new state and, when a
reconciling `fetchVehicles()` is triggered, the argument pair of that call
(`some (none, none)` means "called with both filters undefined"). -/
def handleMarkAsSoldSettle (s : DashboardState) (vehicle : Vehicle)
    (outcome : CallOutcome) :
    DashboardState × Option (Option String × Option String) :=
  match outcome with
  | .resp r =>
    if r.success then
      ({ s with toastSuccesses :=
            jsOr r.message "Vehicle marked as sold successfully" :: s.toastSuccesses },
       some (none, none))
    else
      ({ s with vehicles := revertSold vehicle s.vehicles,
                toastErrors :=
                  jsOr r.error "Failed to mark vehicle as sold" :: s.toastErrors },
       none)
  | .exn msg =>
      ({ s with vehicles := revertSold vehicle s.vehicles,
                toastErrors := msg :: s.toastErrors },
       none)

/-- `handleDelete` (vehicle-dashboard.tsx lines 109-129), as a function of
the pre-state and the awaited `deleteVehicle` outcome. Returns the new
state, the id the API delete was called with (`none` when no pending target
exists and the handler returns early), and the argument pair of the
triggered `fetchVehicles()` when one fires. -/
def handleDelete (s : DashboardState) (outcome : CallOutcome) :
    DashboardState × Option Nat × Option (Option String × Option String) :=
  match s.deletingVehicle with
  | none => (s, none, none)
  | some dv =>
    match outcome with
    | .resp r =>
      if r.success then
        ({ s with deletingVehicle := none,
                  toastSuccesses :=
                    jsOr r.message "Vehicle deleted successfully" :: s.toastSuccesses },
         some dv.id, some (none, none))
      else
        ({ s with toastErrors :=
              jsOr r.error "Failed to delete vehicle" :: s.toastErrors },
         some dv.id, none)
    | .exn msg =>
        ({ s with toastErrors := msg :: s.toastErrors }, some dv.id, none)

/-- `handleEditSave` (vehicle-dashboard.tsx lines 188-191):
`setEditingVehicle(null); fetchVehicles();` — returns the new state and the
argument pair of the triggered fetch. -/
def handleEditSave (s : DashboardState) :
    DashboardState × (Option String × Option String) :=
  ({ s with editingVehicle := none }, (none, none))

/-- One entry of the `ActionMenu` `items` array: its label and `disabled`
flag (a missing flag means enabled — `handleItemClick` runs the action
`if (!item.disabled)`). -/
structure MenuItem where
  label : String
  disabled : Bool := false
deriving Repr, DecidableEq

/-- The three action-menu items built for a table row
(vehicle-dashboard.tsx lines 433-500): Edit and Mark as Sold carry
`disabled: vehicle.status === 'sold'`, Delete passes no `disabled`. -/
def vehicleActionItems (v : Vehicle) : List MenuItem :=
  [ { label := "Edit", disabled := v.status == some "sold" },
    { label := "Mark as Sold", disabled := v.status == some "sold" },
    { label := "Delete" } ]

/-- Updating `status` twice collapses to the outer update; restoring the
original `status` restores the original record. -/
theorem status_update_cancel (v : Vehicle) :
    ({ { v with status := some "sold" } with status := v.status } : Vehicle) = v :=
  rfl

theorem revert_optimistic_entry (v w : Vehicle) (hw : w.id = v.id → w = v) :
    (fun x => if x.id = v.id then { x with status := v.status } else x)
      ((fun x => if x.id = v.id then { x with status := some "sold" } else x) w)
      = w := by
  by_cases hid : w.id = v.id
  · have hwv := hw hid
    subst hwv
    simp [hid, status_update_cancel]
  · simp [hid]

/-- Rolling back the optimistic patch restores the pre-optimistic list
verbatim, provided the target's id identifies it uniquely. -/
theorem revert_optimistic (v : Vehicle) (l : List Vehicle)
    (huniq : ∀ w ∈ l, w.id = v.id → w = v) :
    revertSold v (applyOptimisticSold v l) = l := by
  unfold revertSold applyOptimisticSold
  rw [List.map_map]
  have h : ∀ w ∈ l,
      ((fun x => if x.id = v.id then { x with status := v.status } else x) ∘
        (fun x => if x.id = v.id then { x with status := some "sold" } else x)) w
        = id w :=
    fun w hw => revert_optimistic_entry v w (huniq w hw)
  rw [List.map_congr_left h, List.map_id]

/-- C1: `handleMarkAsSold` patches the target entry's status to `"sold"`
synchronously, before the awaited network call settles; if the call fails
(envelope with `success=false` or a thrown exception) the whole list
returns to its exact pre-optimistic value — so an absent status is restored
as absent, not as `"available"` — an error toast is surfaced, and no
reconciling refetch fires. -/
theorem mark_sold_optimistic_rollback (s : DashboardState) (v : Vehicle)
    (outcome : CallOutcome) (hmem : v ∈ s.vehicles)
    (huniq : ∀ w ∈ s.vehicles, w.id = v.id → w = v)
    (hfail : outcome.isFailure = true) :
    ({ v with status := some "sold" } ∈ (handleMarkAsSoldStart s v).vehicles) ∧
    (∀ w ∈ (handleMarkAsSoldStart s v).vehicles, w.id = v.id →
      w.status = some "sold") ∧
    (handleMarkAsSoldSettle (handleMarkAsSoldStart s v) v outcome).1.vehicles
      = s.vehicles ∧
    (handleMarkAsSoldSettle (handleMarkAsSoldStart s v) v outcome).1.toastErrors.length
      = s.toastErrors.length + 1 ∧
    (handleMarkAsSoldSettle (handleMarkAsSoldStart s v) v outcome).2 = none := by
  have hrevert := revert_optimistic v s.vehicles huniq
  refine ⟨?_, ?_, ?_⟩
  · have h := List.mem_map_of_mem
      (fun x => if x.id = v.id then { x with status := some "sold" } else x) hmem
    simpa [handleMarkAsSoldStart, applyOptimisticSold] using h
  · intro w hw hwid
    simp only [handleMarkAsSoldStart, applyOptimisticSold, List.mem_map] at hw
    obtain ⟨u, hu, rfl⟩ := hw
    by_cases hid : u.id = v.id
    · simp [hid]
    · rw [if_neg hid] at hwid
      exact absurd hwid hid
  · cases outcome with
    | resp r =>
      have hrs : r.success = false := by
        simpa [CallOutcome.isFailure] using hfail
      simp [handleMarkAsSoldSettle, handleMarkAsSoldStart, hrs, hrevert]
    | exn msg =>
      simp [handleMarkAsSoldSettle, handleMarkAsSoldStart, hrevert]

/-- C3: `fetchVehicles` sets loading at entry; a successful response
replaces the list wholesale and resets the page to 1; an error envelope
or a thrown exception empties the list, surfaces the error, and leaves
`currentPage` untouched; and in every case loading is cleared when the
operation completes. -/
theorem fetch_lifecycle (s : DashboardState) (outcome : FetchOutcome) :
    (fetchVehiclesStart s).isLoading = true ∧
    (∀ vs,
      (fetchVehiclesSettle (fetchVehiclesStart s) (.resp vs none)).vehicles = vs ∧
      (fetchVehiclesSettle (fetchVehiclesStart s) (.resp vs none)).currentPage = 1) ∧
    (∀ vs e, e ≠ "" →
      (fetchVehiclesSettle (fetchVehiclesStart s) (.resp vs (some e))).vehicles = [] ∧
      (fetchVehiclesSettle (fetchVehiclesStart s)
        (.resp vs (some e))).currentPage = s.currentPage ∧
      (fetchVehiclesSettle (fetchVehiclesStart s)
        (.resp vs (some e))).toastErrors = e :: s.toastErrors) ∧
    (∀ msg,
      (fetchVehiclesSettle (fetchVehiclesStart s) (.exn msg)).vehicles = [] ∧
      (fetchVehiclesSettle (fetchVehiclesStart s)
        (.exn msg)).currentPage = s.currentPage ∧
      (fetchVehiclesSettle (fetchVehiclesStart s)
        (.exn msg)).toastErrors = msg :: s.toastErrors) ∧
    (fetchVehiclesSettle (fetchVehiclesStart s) outcome).isLoading = false := by
  refine ⟨rfl, fun vs => ⟨rfl, rfl⟩, ?_, fun msg => ⟨rfl, rfl, rfl⟩, ?_⟩
  · intro vs e he
    simp [fetchVehiclesSettle, fetchVehiclesStart, he]
  · cases outcome with
    | resp vs err =>
      cases err with
      | none => rfl
      | some e =>
        by_cases he : e ≠ ""
        · simp [fetchVehiclesSettle, fetchVehiclesStart, he]
        · simp [fetchVehiclesSettle, fetchVehiclesStart, he]
    | exn msg => rfl

/-- C8: with a pending delete target, confirming calls the API delete with
that target's id; on success the target is cleared and a refetch is
triggered; on failure (error envelope or thrown exception) the target stays
set, the vehicle list is untouched, no refetch fires, and an error toast is
surfaced. -/
theorem delete_flow (s : DashboardState) (dv : DeleteTarget)
    (outcome : CallOutcome) (hdv : s.deletingVehicle = some dv) :
    (handleDelete s outcome).2.1 = some dv.id ∧
    (∀ r, outcome = .resp r → r.success = true →
      (handleDelete s outcome).1.deletingVehicle = none ∧
      (handleDelete s outcome).2.2 = some (none, none)) ∧
    (outcome.isFailure = true →
      (handleDelete s outcome).1.deletingVehicle = some dv ∧
      (handleDelete s outcome).1.vehicles = s.vehicles ∧
      (handleDelete s outcome).2.2 = none ∧
      (handleDelete s outcome).1.toastErrors.length
        = s.toastErrors.length + 1) := by
  cases outcome with
  | resp r =>
    by_cases hrs : r.success = true
    · refine ⟨?_, ?_, ?_⟩
      · simp [handleDelete, hdv, hrs]
      · intro r' hr' hrs'
        simp [handleDelete, hdv, hrs]
      · intro hfail
        rw [show (CallOutcome.resp r).isFailure = !r.success from rfl, hrs] at hfail
        simp at hfail
    · have hrs' : r.success = false := by
        cases h : r.success
        · rfl
        · exact absurd h hrs
      refine ⟨?_, ?_, ?_⟩
      · simp [handleDelete, hdv, hrs']
      · intro r' hr' hrs2
        cases hr'
        exact absurd hrs2 hrs
      · intro _
        simp [handleDelete, hdv, hrs']
  | exn msg =>
    refine ⟨?_, ?_, ?_⟩
    · simp [handleDelete, hdv]
    · intro r' hr' _
      cases hr'
    · intro _
      simp [handleDelete, hdv]

/-- C9: in each row's action menu, the Edit and Mark-as-Sold entries are
disabled exactly when the vehicle's status equals `"sold"`, and the Delete
entry is never disabled. -/
theorem action_items_disabled (v : Vehicle) :
    (∀ item ∈ vehicleActionItems v, item.label = "Edit" →
      (item.disabled = true ↔ v.status = some "sold")) ∧
    (∀ item ∈ vehicleActionItems v, item.label = "Mark as Sold" →
      (item.disabled = true ↔ v.status = some "sold")) ∧
    (∀ item ∈ vehicleActionItems v, item.label = "Delete" →
      item.disabled = false) := by
  refine ⟨?_, ?_, ?_⟩ <;>
  · intro item hitem hlabel
    simp only [vehicleActionItems, List.mem_cons, List.not_mem_nil, or_false] at hitem
    rcases hitem with h | h | h <;> subst h <;> simp_all [beq_iff_eq]

/-- C10: the reconciling refetches after a successful delete, a successful
mark-as-sold, and an edit-save are all issued as `fetchVehicles()` with no
arguments — both filters `undefined` — and `fetchVehicles` resolves that
pair to an unfiltered request, regardless of the search queries held in the
state. -/
theorem reconcile_refetch_unfiltered (s : DashboardState) (dv : DeleteTarget)
    (v : Vehicle) (r : ApiResponse)
    (hdv : s.deletingVehicle = some dv) (hs : r.success = true) :
    (handleDelete s (.resp r)).2.2 = some (none, none) ∧
    (handleMarkAsSoldSettle s v (.resp r)).2 = some (none, none) ∧
    (handleEditSave s).2 = (none, none) ∧
    fetchRequestFilters none none = (none, none) := by
  refine ⟨?_, ?_, rfl, rfl⟩
  · simp [handleDelete, hdv, hs]
  · simp [handleMarkAsSoldSettle, hs]

/-- A concrete dashboard state used to instantiate witnesses. -/
def sampleState : DashboardState :=
  { vehicles := sampleVehicles 7
    isLoading := false
    currentPage := 2
    searchSerialNumber := "AB"
    searchDealerCode := ""
    searchMode := .serial_number
    editingVehicle := none
    deletingVehicle := some { id := 3, serialNumber := "S" }
    toastSuccesses := []
    toastErrors := [] }

theorem mark_sold_optimistic_rollback_witness :
    ({ mkVehicle 3 with status := some "sold" }
        ∈ (handleMarkAsSoldStart sampleState (mkVehicle 3)).vehicles) ∧
    (∀ w ∈ (handleMarkAsSoldStart sampleState (mkVehicle 3)).vehicles,
      w.id = (mkVehicle 3).id → w.status = some "sold") ∧
    (handleMarkAsSoldSettle (handleMarkAsSoldStart sampleState (mkVehicle 3))
      (mkVehicle 3)
      (.resp { success := false, error := some "server down" })).1.vehicles
      = sampleState.vehicles ∧
    (handleMarkAsSoldSettle (handleMarkAsSoldStart sampleState (mkVehicle 3))
      (mkVehicle 3)
      (.resp { success := false, error := some "server down" })).1.toastErrors.length
      = sampleState.toastErrors.length + 1 ∧
    (handleMarkAsSoldSettle (handleMarkAsSoldStart sampleState (mkVehicle 3))
      (mkVehicle 3)
      (.resp { success := false, error := some "server down" })).2 = none :=
  mark_sold_optimistic_rollback sampleState (mkVehicle 3)
    (.resp { success := false, error := some "server down" })
    (by decide) (by decide) (by decide)

theorem fetch_lifecycle_witness :
    (fetchVehiclesSettle (fetchVehiclesStart sampleState)
      (.resp [] (some "boom"))).vehicles = [] ∧
    (fetchVehiclesSettle (fetchVehiclesStart sampleState)
      (.resp [] (some "boom"))).currentPage = sampleState.currentPage ∧
    (fetchVehiclesSettle (fetchVehiclesStart sampleState)
      (.resp [] (some "boom"))).toastErrors = "boom" :: sampleState.toastErrors :=
  (fetch_lifecycle sampleState (.resp [] (some "boom"))).2.2.1 [] "boom"
    (by decide)

theorem delete_flow_witness :
    (handleDelete sampleState (.exn "network unreachable")).2.1 = some 3 ∧
    ((handleDelete sampleState (.exn "network unreachable")).1.deletingVehicle
        = some { id := 3, serialNumber := "S" } ∧
      (handleDelete sampleState (.exn "network unreachable")).1.vehicles
        = sampleState.vehicles ∧
      (handleDelete sampleState (.exn "network unreachable")).2.2 = none ∧
      (handleDelete sampleState (.exn "network unreachable")).1.toastErrors.length
        = sampleState.toastErrors.length + 1) :=
  have h := delete_flow sampleState { id := 3, serialNumber := "S" }
    (.exn "network unreachable") (by decide)
  ⟨h.1, h.2.2 (by decide)⟩

/-- A sold vehicle, for the C9 witness. -/
def soldVehicle : Vehicle := { mkVehicle 5 with status := some "sold" }

theorem action_items_disabled_witness :
    (({ label := "Delete" } : MenuItem).disabled = false) ∧
    (({ label := "Edit", disabled := true } : MenuItem).disabled = true ↔
      soldVehicle.status = some "sold") :=
  ⟨(action_items_disabled (mkVehicle 0)).2.2 { label := "Delete" }
      (by decide) rfl,
   (action_items_disabled soldVehicle).1 { label := "Edit", disabled := true }
      (by decide) rfl⟩

theorem reconcile_refetch_unfiltered_witness :
    (handleDelete sampleState (.resp { success := true })).2.2
      = some (none, none) ∧
    (handleMarkAsSoldSettle sampleState (mkVehicle 3)
      (.resp { success := true })).2 = some (none, none) ∧
    (handleEditSave sampleState).2 = (none, none) ∧
    fetchRequestFilters none none = (none, none) :=
  reconcile_refetch_unfiltered sampleState { id := 3, serialNumber := "S" }
    (mkVehicle 3) { success := true } (by decide) (by decide)

end BajajDashboard
